import Mathlib

/-!
Shallow embedding of the email-agent-framework core in Lean 4.

The development models the three components that the verified claims are
about, translated from the Python sources:

* `src/src/memory/persistent_memory.py` — the event store, feedback log and
  confidence-weighted preference store (`PersistentMemory`).
* `src/src/agent/email_master_agent.py` (with `src/src/agent/base.py`) — the
  orchestrator: analysis fan-out, confidence-gated planning, action
  execution and cycle reporting.
* `src/src/monitoring/performance_monitor.py` — the performance monitor:
  in-flight operation tracking, the fixed-capacity metrics ring buffer,
  per-agent statistics and threshold alerting.

Modelling conventions: Python floats become `ℚ` (the constants involved are
exact decimals); Python dictionaries become association lists preserving
insertion order (existing keys are overwritten in place, new keys are
appended, matching CPython dict semantics); wall-clock instants are threaded
as explicit parameters; `logger.warning` calls become values in a returned
warning list; exceptions raised by external collaborators become `Except`
values.  SQLite rows mirror the in-memory caches (`INSERT OR REPLACE` keeps
them in lock step), so a single store stands for both.
-/

namespace EmailAgent

/-- Python values as they occur in event payloads and feedback payloads
(`Dict[str, Any]` entries in the source). -/
inductive Value where
  | none : Value
  | str : String → Value
  | bool : Bool → Value
  | num : ℚ → Value
  | list : List Value → Value
  | dict : List (String × Value) → Value
deriving Inhabited

/-- Python truthiness, as used by `if sender:`, `if intent and response_style:`
and similar guards in `persistent_memory.py`. -/
def Value.truthy : Value → Bool
  | .none => false
  | .str s => !(s == "")
  | .bool b => b
  | .num q => !(q == 0)
  | .list l => !l.isEmpty
  | .dict d => !d.isEmpty

mutual

/-- Rendering of a value inside an f-string (`f"sender_category_{sender}"`).
Only strings occur in the derived preference keys of the source; the
remaining cases give a repr-like rendering. -/
def Value.format : Value → String
  | .none => "None"
  | .str s => s
  | .bool b => if b then "True" else "False"
  | .num q => toString q
  | .list l => "[" ++ Value.formatList l ++ "]"
  | .dict d => "\x7b" ++ Value.formatDict d ++ "\x7d"

def Value.formatList : List Value → String
  | [] => ""
  | [v] => Value.format v
  | v :: vs => Value.format v ++ ", " ++ Value.formatList vs

def Value.formatDict : List (String × Value) → String
  | [] => ""
  | [(k, v)] => k ++ ": " ++ Value.format v
  | (k, v) :: kvs => k ++ ": " ++ Value.format v ++ ", " ++ Value.formatDict kvs

end

/-- Python's numeric coercion at the points where the source does arithmetic
on a payload entry (`calculated_priority`, `correct_priority`). -/
def Value.toNum : Value → ℚ
  | .num q => q
  | .bool b => if b then 1 else 0
  | _ => 0

/-- `d.get(k, default)` on a Python dict (association list, first binding
wins as in a dict with unique keys). -/
def dictGet (d : List (String × Value)) (k : String) (default : Value) : Value :=
  match d.find? (fun p => p.1 == k) with
  | some p => p.2
  | Option.none => default

/-- `v.get(k, default)` where `v` is a payload expected to be a dict
(feedback payloads in `persistent_memory.py`). -/
def Value.get (v : Value) (k : String) (default : Value) : Value :=
  match v with
  | .dict d => dictGet d k default
  | _ => default

/-- Dict assignment `d[k] = v`: overwrite in place if the key exists,
append otherwise (CPython dict insertion-order semantics). -/
def setAssoc {α : Type} (l : List (String × α)) (k : String) (v : α) :
    List (String × α) :=
  if l.any (fun p => p.1 == k) then
    l.map (fun p => if p.1 == k then (k, v) else p)
  else
    l ++ [(k, v)]

/-- Dict lookup `d[k]` / `d.get(k)` for assoc lists. -/
def lookupAssoc {α : Type} (l : List (String × α)) (k : String) : Option α :=
  match l.find? (fun p => p.1 == k) with
  | some p => some p.2
  | Option.none => Option.none

/-! ## Persistent memory (`src/src/memory/persistent_memory.py`) -/

/-- `MemoryEvent` dataclass. -/
structure MemoryEvent where
  id : String
  timestamp : Nat
  event_type : String
  data : List (String × Value)
  importance : ℚ
  tags : List String
deriving Inhabited

/-- `UserPreference` dataclass.  The source documents
`confidence: float  # 0.0 - 1.0`. -/
structure UserPreference where
  category : String
  preference_key : String
  preference_value : Value
  confidence : ℚ
  learned_from : List String
  last_updated : Nat
deriving Inhabited

/-- Row of the `user_feedback` table. -/
structure FeedbackRecord where
  feedback_id : String
  event_id : String
  feedback_type : String
  feedback_value : Value
  timestamp : Nat
deriving Inhabited

/-- State of a `PersistentMemory` instance.  `events` stands for the
`memory_events` table together with the `recent_events` cache (kept in sync
by `add_event`; `get_event` consults the cache and then the table, seeing
the same rows); `user_preferences` is the preference dict keyed by
`f"{category}.{preference_key}"`; `feedback` is the `user_feedback` table. -/
structure MemoryState where
  events : List MemoryEvent
  user_preferences : List (String × UserPreference)
  feedback : List FeedbackRecord
deriving Inhabited

/-- `PersistentMemory.get_event`: cache lookup, then table lookup by
primary key — both return the unique event with the given id. -/
def MemoryState.getEvent (st : MemoryState) (event_id : String) :
    Option MemoryEvent :=
  st.events.find? (fun e => e.id == event_id)

/-- `PersistentMemory._update_preference`.  On an existing key the value is
overwritten, the confidence becomes `min(1.0, confidence + boost)` (note:
no lower clamp in this branch), the contributing event id is appended and
the timestamp refreshed; on a fresh key the confidence is
`max(0.0, 0.5 + boost)`. -/
def MemoryState.updatePreference (st : MemoryState) (category : String)
    (preference_key : String) (preference_value : Value) (event_id : String)
    (confidence_boost : ℚ) (now : Nat) : MemoryState :=
  let full_key := category ++ "." ++ preference_key
  match lookupAssoc st.user_preferences full_key with
  | some pref =>
      let pref' : UserPreference :=
        { pref with
          preference_value := preference_value
          confidence := min 1 (pref.confidence + confidence_boost)
          learned_from := pref.learned_from ++ [event_id]
          last_updated := now }
      { st with user_preferences := setAssoc st.user_preferences full_key pref' }
  | Option.none =>
      let pref : UserPreference :=
        { category := category
          preference_key := preference_key
          preference_value := preference_value
          confidence := max 0 (1/2 + confidence_boost)
          learned_from := [event_id]
          last_updated := now }
      { st with user_preferences := setAssoc st.user_preferences full_key pref }

/-- `PersistentMemory.get_preference`: `(value, confidence)` of the stored
preference, or `(default, 0.0)` when absent. -/
def MemoryState.getPreference (st : MemoryState) (category : String)
    (preference_key : String) (default : Value) : Value × ℚ :=
  let full_key := category ++ "." ++ preference_key
  match lookupAssoc st.user_preferences full_key with
  | some pref => (pref.preference_value, pref.confidence)
  | Option.none => (default, 0)

/-- `PersistentMemory._update_classification_preference`. -/
def MemoryState.updateClassificationPreference (st : MemoryState)
    (event : MemoryEvent) (correction : Value) (now : Nat) : MemoryState :=
  let original_classification := dictGet event.data "classification_result" .none
  let corrected_classification := correction.get "correct_category" .none
  if original_classification.truthy && corrected_classification.truthy then
    let sender := dictGet event.data "email_sender" (.str "")
    let st :=
      if sender.truthy then
        st.updatePreference "classification"
          ("sender_category_" ++ sender.format) corrected_classification
          event.id (3/10) now
      else st
    let keywords :=
      match dictGet event.data "email_keywords" (.list []) with
      | .list l => l
      | _ => []
    keywords.foldl
      (fun st keyword =>
        st.updatePreference "classification"
          ("keyword_category_" ++ keyword.format) corrected_classification
          event.id (2/10) now)
      st
  else st

/-- `PersistentMemory._update_response_preference`. -/
def MemoryState.updateResponsePreference (st : MemoryState)
    (event : MemoryEvent) (approval : Value) (now : Nat) : MemoryState :=
  let approved := approval.get "approved" (.bool false)
  let response_style := dictGet event.data "response_style" (.str "")
  let intent := dictGet event.data "intent" (.str "")
  if intent.truthy && response_style.truthy then
    let preference_value :=
      Value.dict [("style", response_style), ("approved", approved)]
    st.updatePreference "response" ("intent_style_" ++ intent.format)
      preference_value event.id (if approved.truthy then 4/10 else -2/10) now
  else st

/-- `PersistentMemory._update_organization_preference`. -/
def MemoryState.updateOrganizationPreference (st : MemoryState)
    (event : MemoryEvent) (preference : Value) (now : Nat) : MemoryState :=
  let org_action := preference.get "action" .none
  let sender := dictGet event.data "email_sender" (.str "")
  if org_action.truthy && sender.truthy then
    st.updatePreference "organization" ("sender_action_" ++ sender.format)
      org_action event.id (3/10) now
  else st

/-- `PersistentMemory._update_priority_preference`. -/
def MemoryState.updatePriorityPreference (st : MemoryState)
    (event : MemoryEvent) (priority_adjustment : Value) (now : Nat) :
    MemoryState :=
  let original_priority := (dictGet event.data "calculated_priority" (.num 0)).toNum
  let adjusted_priority := priority_adjustment.get "correct_priority" (.num 0)
  let sender := dictGet event.data "email_sender" (.str "")
  if sender.truthy && 1 < |original_priority - adjusted_priority.toNum| then
    st.updatePreference "priority" ("sender_priority_" ++ sender.format)
      adjusted_priority event.id (4/10) now
  else st

/-- `PersistentMemory._learn_from_feedback`: resolve the source event (a
silent no-op when it is missing) and dispatch on the feedback kind. -/
def MemoryState.learnFromFeedback (st : MemoryState) (event_id : String)
    (feedback_type : String) (feedback_value : Value) (now : Nat) :
    MemoryState :=
  match st.getEvent event_id with
  | Option.none => st
  | some event =>
      if feedback_type == "classification_correction" then
        st.updateClassificationPreference event feedback_value now
      else if feedback_type == "response_approval" then
        st.updateResponsePreference event feedback_value now
      else if feedback_type == "organization_preference" then
        st.updateOrganizationPreference event feedback_value now
      else if feedback_type == "priority_adjustment" then
        st.updatePriorityPreference event feedback_value now
      else st

/-- `PersistentMemory.add_user_feedback`: the `FeedbackRecord` is always
inserted into the `user_feedback` table, then learning is triggered. -/
def MemoryState.addUserFeedback (st : MemoryState) (event_id : String)
    (feedback_type : String) (feedback_value : Value) (now : Nat) :
    MemoryState :=
  let feedback_id := "feedback_" ++ toString now
  let record : FeedbackRecord :=
    { feedback_id := feedback_id
      event_id := event_id
      feedback_type := feedback_type
      feedback_value := feedback_value
      timestamp := now }
  let st' := { st with feedback := st.feedback ++ [record] }
  st'.learnFromFeedback event_id feedback_type feedback_value now

/-! ## Orchestrator (`src/src/agent/email_master_agent.py`, `base.py`) -/

/-- `EmailMessage` as reconstructed by `EmailMasterAgent.think`. -/
structure EmailMessage where
  id : String
  subject : String
  sender : String
  recipients : List String
  body : String
  html_body : Option String
  date : Nat
  labels : List String
  is_read : Bool
  is_important : Bool
  attachments : List String
deriving Inhabited, DecidableEq

/-- One entry of the `classifications` list built by
`_run_classification_batch`. -/
structure Classification where
  email_id : String
  category : String
  priority : ℚ
  sentiment : String
  confidence : ℚ
deriving Inhabited, DecidableEq

/-- One entry of the `organization` suggestion list built by
`_run_organization_analysis`. -/
structure OrgSuggestion where
  action : String
  target : String
  value : String
  confidence : ℚ
deriving Inhabited, DecidableEq

/-- One entry of the `responses` list built by `_run_response_generation`. -/
structure ResponseCandidate where
  email_id : String
  response_text : String
  intent : String
  confidence : ℚ
deriving Inhabited, DecidableEq

/-- The merged `results` dict of `run_email_analysis_pipeline`. -/
structure AnalysisResults where
  total_emails : Nat
  classification_results : List Classification
  organization_suggestions : List OrgSuggestion
  response_candidates : List ResponseCandidate
deriving Inhabited, DecidableEq

/-- Outcome of one analysis branch submitted to the thread pool: either the
branch's result list or the exception its future raised (timed out or
errored).  `run_email_analysis_pipeline` catches the exception and keeps
that section empty. -/
abbrev BranchOutcome (α : Type) := Except String α

/-- `run_email_analysis_pipeline` (parallel path, the default
`parallel_processing=True` configuration): the `results` dict starts with
empty sections; each completed future fills exactly its own section, and a
future that raised is logged and leaves its section empty. -/
def runEmailAnalysisPipeline (total_emails : Nat)
    (classification_branch : BranchOutcome (List Classification))
    (organization_branch : BranchOutcome (List OrgSuggestion))
    (response_branch : BranchOutcome (List ResponseCandidate)) :
    AnalysisResults :=
  { total_emails := total_emails
    classification_results :=
      match classification_branch with
      | .ok l => l
      | .error _ => []
    organization_suggestions :=
      match organization_branch with
      | .ok l => l
      | .error _ => []
    response_candidates :=
      match response_branch with
      | .ok l => l
      | .error _ => [] }

/-- `EmailMasterAgent.workflow_settings`. -/
structure WorkflowSettings where
  auto_classify : Bool
  auto_organize : Bool
  auto_generate_responses : Bool
  auto_send_responses : Bool
  parallel_processing : Bool
  batch_size : Nat
deriving Inhabited, DecidableEq

/-- Defaults set in `EmailMasterAgent.__init__`. -/
def defaultWorkflowSettings : WorkflowSettings :=
  { auto_classify := true
    auto_organize := true
    auto_generate_responses := true
    auto_send_responses := false
    parallel_processing := true
    batch_size := 20 }

/-- The action dicts appended to the execution-plan buckets by
`coordinate_workflow_execution`. -/
inductive PlannedAction where
  | applyClassification (email_id : String) (category : String) (confidence : ℚ)
  | reviewClassification (email_id : String) (suggested_category : String)
      (confidence : ℚ)
  | applyOrganization (action : String) (target : String) (confidence : ℚ)
  | sendResponse (email_id : String) (response_text : String)
  | reviewResponse (email_id : String) (response_text : String) (confidence : ℚ)
deriving Inhabited, DecidableEq

/-- The `execution_plan` dict of `coordinate_workflow_execution`. -/
structure ExecutionPlan where
  immediate_actions : List PlannedAction
  user_approval_needed : List PlannedAction
  scheduled_actions : List PlannedAction
  completed_actions : List PlannedAction
deriving Inhabited, DecidableEq

/-- Loop body of the classification loop in `coordinate_workflow_execution`:
`classification.get("confidence", 0) > 0.7` routes to `immediate_actions`,
otherwise to `user_approval_needed`. -/
def classificationStep (plan : ExecutionPlan) (c : Classification) :
    ExecutionPlan :=
  if 7/10 < c.confidence then
    { plan with immediate_actions := plan.immediate_actions ++
        [.applyClassification c.email_id c.category c.confidence] }
  else
    { plan with user_approval_needed := plan.user_approval_needed ++
        [.reviewClassification c.email_id c.category c.confidence] }

/-- Loop body of the organization loop in `coordinate_workflow_execution`:
every suggestion becomes an immediate action (no confidence check). -/
def organizationStep (plan : ExecutionPlan) (s : OrgSuggestion) :
    ExecutionPlan :=
  { plan with immediate_actions := plan.immediate_actions ++
      [.applyOrganization s.action s.target s.confidence] }

/-- Loop body of the response loop in `coordinate_workflow_execution`:
`auto_send_responses and response.get("confidence", 0) > 0.8` routes to
`immediate_actions`, otherwise to `user_approval_needed`. -/
def responseStep (settings : WorkflowSettings) (plan : ExecutionPlan)
    (r : ResponseCandidate) : ExecutionPlan :=
  if settings.auto_send_responses ∧ 8/10 < r.confidence then
    { plan with immediate_actions := plan.immediate_actions ++
        [.sendResponse r.email_id r.response_text] }
  else
    { plan with user_approval_needed := plan.user_approval_needed ++
        [.reviewResponse r.email_id r.response_text r.confidence] }

/-- `coordinate_workflow_execution`: classification results are gated at
confidence `> 0.7` (when `auto_classify`), organization suggestions are all
immediate (when `auto_organize`), response candidates are gated at
`auto_send_responses and confidence > 0.8`. -/
def coordinateWorkflowExecution (settings : WorkflowSettings)
    (analysis_results : AnalysisResults) : ExecutionPlan :=
  let plan : ExecutionPlan :=
    { immediate_actions := []
      user_approval_needed := []
      scheduled_actions := []
      completed_actions := [] }
  let plan :=
    if settings.auto_classify then
      analysis_results.classification_results.foldl classificationStep plan
    else plan
  let plan :=
    if settings.auto_organize then
      analysis_results.organization_suggestions.foldl organizationStep plan
    else plan
  analysis_results.response_candidates.foldl (responseStep settings) plan

/-- Outcome of `_execute_single_action` for one action: a boolean result, or
the exception it raised (propagated from the email tools). -/
abbrev ActionExecutor := PlannedAction → Except String Bool

/-- The `execution_results` dict of `execute_workflow_actions`: one
`action_details` entry and one tally increment per immediate action. -/
structure ExecutionResults where
  successful_actions : Nat
  failed_actions : Nat
  action_details : List (PlannedAction × String)
deriving Inhabited, DecidableEq

/-- Loop body of `execute_workflow_actions`: run one immediate action,
catch its exception if any, and tally the outcome. -/
def executeActionStep (exec : ActionExecutor) (res : ExecutionResults)
    (action : PlannedAction) : ExecutionResults :=
  match exec action with
  | .ok true =>
      { res with
        successful_actions := res.successful_actions + 1
        action_details := res.action_details ++ [(action, "success")] }
  | .ok false =>
      { res with
        failed_actions := res.failed_actions + 1
        action_details := res.action_details ++ [(action, "failed")] }
  | .error e =>
      { res with
        failed_actions := res.failed_actions + 1
        action_details := res.action_details ++ [(action, "error: " ++ e)] }

/-- `execute_workflow_actions`: iterate the immediate actions, catching the
failure of each one independently and tallying it. -/
def executeWorkflowActions (exec : ActionExecutor) (plan : ExecutionPlan) :
    ExecutionResults :=
  plan.immediate_actions.foldl (executeActionStep exec)
    { successful_actions := 0, failed_actions := 0, action_details := [] }

/-- The `workflow_result` dict accumulated by `EmailMasterAgent.act` across
the workflow steps. -/
structure WorkflowResult where
  emails_processed : Nat
  analysis_results : Option AnalysisResults
  execution_plan : Option ExecutionPlan
  execution_results : Option ExecutionResults
  performance_report_done : Bool
deriving Inhabited, DecidableEq

/-- `ToolResult` from `base.py`, specialised to the master agent's workflow
results (the only results `EmailMasterAgent.act` appends). -/
structure MasterToolResult where
  success : Bool
  result : WorkflowResult
deriving Inhabited, DecidableEq

/-- A `memory.add_event` call issued by `EmailMasterAgent.act`. -/
structure PersistedEvent where
  event_type : String
  data : WorkflowResult
  importance : ℚ
  tags : List String
deriving Inhabited, DecidableEq

/-- The single planned action type produced by `EmailMasterAgent.think`. -/
inductive MasterAction where
  | comprehensive (emails : List EmailMessage) (steps : List String)
deriving Inhabited, DecidableEq

/-- The perception fields read by `EmailMasterAgent.think` (`perceive` sets
`total_new_emails` to the length of `new_emails`). -/
structure Perception where
  new_emails : List EmailMessage
  total_new_emails : Nat
deriving Inhabited, DecidableEq

/-- `EmailMasterAgent.think`: an empty batch plans nothing; otherwise one
comprehensive-processing action carrying the batch and the step list. -/
def EmailMasterAgentThink (perception : Perception) : List MasterAction :=
  if perception.total_new_emails = 0 then []
  else
    [.comprehensive perception.new_emails
      ["run_analysis_pipeline", "coordinate_workflow", "execute_actions",
       "monitor_performance"]]

/-- The step loop inside `EmailMasterAgent.act`: each named step runs its
coordination tool; `coordinate_workflow` and `execute_actions` are skipped
unless the earlier step populated their input.  The branch outcomes and the
action executor stand for the sub-agents and email tools the steps call. -/
def runWorkflowSteps (settings : WorkflowSettings)
    (classification_branch : BranchOutcome (List Classification))
    (organization_branch : BranchOutcome (List OrgSuggestion))
    (response_branch : BranchOutcome (List ResponseCandidate))
    (exec : ActionExecutor) (emails : List EmailMessage)
    (steps : List String) : WorkflowResult :=
  steps.foldl
    (fun wr step =>
      if step == "run_analysis_pipeline" then
        { wr with analysis_results := some (runEmailAnalysisPipeline
            emails.length classification_branch organization_branch
            response_branch) }
      else if step == "coordinate_workflow" then
        match wr.analysis_results with
        | some pipeline_results =>
            let plan := coordinateWorkflowExecution settings pipeline_results
            { wr with execution_plan := some plan }
        | Option.none => wr
      else if step == "execute_actions" then
        match wr.execution_plan with
        | some plan =>
            let execution_results := executeWorkflowActions exec plan
            { wr with execution_results := some execution_results }
        | Option.none => wr
      else if step == "monitor_performance" then
        { wr with performance_report_done := true }
      else wr)
    { emails_processed := emails.length
      analysis_results := Option.none
      execution_plan := Option.none
      execution_results := Option.none
      performance_report_done := false }

/-- `EmailMasterAgent.act`: for every comprehensive-processing action, run
the workflow steps, persist one `workflow_execution` event (importance 0.8,
tags `workflow`/`email_processing`) and append one successful
`ToolResult`. -/
def EmailMasterAgentAct (settings : WorkflowSettings)
    (classification_branch : BranchOutcome (List Classification))
    (organization_branch : BranchOutcome (List OrgSuggestion))
    (response_branch : BranchOutcome (List ResponseCandidate))
    (exec : ActionExecutor) (actions : List MasterAction) :
    List MasterToolResult × List PersistedEvent :=
  actions.foldl
    (fun acc a =>
      match a with
      | .comprehensive emails steps =>
          let workflow_result := runWorkflowSteps settings
            classification_branch organization_branch response_branch exec
            emails steps
          (acc.1 ++ [{ success := true, result := workflow_result }],
           acc.2 ++ [{ event_type := "workflow_execution"
                       data := workflow_result
                       importance := 8/10
                       tags := ["workflow", "email_processing"] }]))
    ([], [])

/-- The cycle result of `BaseAgent.run_cycle` (non-catastrophic path),
restricted to the fields the claims are about: the planned actions, the
action results, the events the act phase persisted, and the reported
`success := all(r.success for r in results)`. -/
structure CycleResult where
  planned_actions : List MasterAction
  results : List MasterToolResult
  events : List PersistedEvent
  success : Bool
deriving Inhabited, DecidableEq

/-- `BaseAgent.run_cycle` for the master agent: think over the given
perception, act, and report success as the conjunction over all action
results. -/
def runCycle (settings : WorkflowSettings) (perception : Perception)
    (classification_branch : BranchOutcome (List Classification))
    (organization_branch : BranchOutcome (List OrgSuggestion))
    (response_branch : BranchOutcome (List ResponseCandidate))
    (exec : ActionExecutor) : CycleResult :=
  let planned_actions := EmailMasterAgentThink perception
  let out := EmailMasterAgentAct settings classification_branch
    organization_branch response_branch exec planned_actions
  { planned_actions := planned_actions
    results := out.1
    events := out.2
    success := out.1.all (fun r => r.success) }

/-! ## Performance monitor (`src/src/monitoring/performance_monitor.py`) -/

/-- `collections.deque(maxlen=cap).append(x)`: the new element goes to the
right; when the buffer is full the leftmost (oldest) element is evicted. -/
def dequePush {α : Type} (cap : Nat) (buf : List α) (x : α) : List α :=
  if buf.length < cap then buf ++ [x] else buf.drop 1 ++ [x]

/-- The `context` dict attached to an `operation_execution_time` metric in
`end_operation`. -/
structure MetricContext where
  operation_type : String
  success : Bool
  result_data : List (String × Value)
  error_info : Option String
deriving Inhabited

/-- `PerformanceMetric` dataclass. -/
structure PerformanceMetric where
  metric_name : String
  value : ℚ
  timestamp : ℚ
  agent_name : String
  context : MetricContext
deriving Inhabited

/-- One entry of `active_operations`. -/
structure ActiveOperation where
  agent_name : String
  operation_type : String
  start_time : ℚ
  context : List (String × Value)
deriving Inhabited

/-- The per-agent statistics record of the `agent_stats` defaultdict. -/
structure AgentStats where
  total_operations : Nat
  successful_operations : Nat
  failed_operations : Nat
  total_execution_time : ℚ
  tool_usage : List (String × Nat)
  error_types : List (String × Nat)
deriving Inhabited

/-- The defaultdict factory for `agent_stats`. -/
def defaultAgentStats : AgentStats :=
  { total_operations := 0
    successful_operations := 0
    failed_operations := 0
    total_execution_time := 0
    tool_usage := []
    error_types := [] }

/-- `defaultdict(int)` increment `d[k] += 1`. -/
def bumpAssoc (l : List (String × Nat)) (k : String) : List (String × Nat) :=
  match lookupAssoc l k with
  | some n => setAssoc l k (n + 1)
  | Option.none => setAssoc l k 1

/-- The alerting thresholds set in `PerformanceMonitor.__init__`. -/
structure MonitorThresholds where
  max_execution_time : ℚ
  min_success_rate : ℚ
  max_memory_usage : ℚ
  max_error_rate : ℚ
deriving Inhabited

/-- Threshold defaults: 30s, 0.85, 100MB, 0.15. -/
def defaultMonitorThresholds : MonitorThresholds :=
  { max_execution_time := 30
    min_success_rate := 85/100
    max_memory_usage := 100
    max_error_rate := 15/100 }

/-- State of a `PerformanceMonitor` relevant to operation tracking: the
metrics ring buffer (capacity `buffer_size`), the in-flight operation dict
and the per-agent statistics.  (The snapshot buffer and trend windows are
untouched by the operations modelled here.) -/
structure MonitorState where
  buffer_size : Nat
  metrics_buffer : List PerformanceMetric
  active_operations : List (String × ActiveOperation)
  agent_stats : List (String × AgentStats)
  thresholds : MonitorThresholds
deriving Inhabited

/-- A fresh `PerformanceMonitor(buffer_size=1000)`. -/
def initialMonitorState : MonitorState :=
  { buffer_size := 1000
    metrics_buffer := []
    active_operations := []
    agent_stats := []
    thresholds := defaultMonitorThresholds }

/-- The `logger.warning` signals emitted by the monitor. -/
inductive MonitorWarning where
  | operationNotFound (operation_id : String)
  | slowOperation (agent_name : String) (execution_time : ℚ)
  | lowSuccessRate (agent_name : String) (success_rate : ℚ)
deriving Inhabited, DecidableEq

/-- `PerformanceMonitor.start_operation`: open (or silently overwrite) the
in-flight record for `operation_id`. -/
def MonitorState.startOperation (st : MonitorState) (operation_id : String)
    (agent_name : String) (operation_type : String)
    (context : List (String × Value)) (now : ℚ) : MonitorState :=
  let record : ActiveOperation :=
    { agent_name := agent_name
      operation_type := operation_type
      start_time := now
      context := context }
  { st with active_operations := setAssoc st.active_operations operation_id record }

/-- `PerformanceMonitor._check_performance_thresholds`: warn on a duration
strictly above `max_execution_time`; warn on a success rate strictly below
`min_success_rate`, but only once the agent has at least 10 recorded
operations. -/
def checkPerformanceThresholds (thresholds : MonitorThresholds)
    (stats : AgentStats) (agent_name : String) (execution_time : ℚ) :
    List MonitorWarning :=
  (if thresholds.max_execution_time < execution_time then
    [.slowOperation agent_name execution_time]
  else []) ++
  (if 10 ≤ stats.total_operations then
    let success_rate : ℚ :=
      (stats.successful_operations : ℚ) / (stats.total_operations : ℚ)
    if success_rate < thresholds.min_success_rate then
      [.lowSuccessRate agent_name success_rate]
    else []
  else [])

/-- The statistics mutations `end_operation` applies to the owner's
`agent_stats` record: bump the operation count and cumulative time, then
bump the success or failure counter (recording the error type on a failure
that carries one). -/
def updateAgentStats (stats : AgentStats) (success : Bool)
    (error_info : Option String) (execution_time : ℚ) : AgentStats :=
  let stats :=
    { stats with
      total_operations := stats.total_operations + 1
      total_execution_time := stats.total_execution_time + execution_time }
  if success then
    { stats with successful_operations := stats.successful_operations + 1 }
  else
    { stats with
      failed_operations := stats.failed_operations + 1
      error_types :=
        match error_info with
        | some e => bumpAssoc stats.error_types e
        | Option.none => stats.error_types }

/-- `PerformanceMonitor.end_operation`: an unknown `operation_id` is a
warning-only no-op; otherwise the in-flight record is popped, the owner's
statistics are updated, the metric is appended to the ring buffer, and the
thresholds are checked against the updated statistics. -/
def MonitorState.endOperation (st : MonitorState) (operation_id : String)
    (success : Bool) (result_data : List (String × Value))
    (error_info : Option String) (now : ℚ) :
    MonitorState × List MonitorWarning :=
  match lookupAssoc st.active_operations operation_id with
  | Option.none => (st, [.operationNotFound operation_id])
  | some operation =>
      let active' := st.active_operations.filter
        (fun p => !(p.1 == operation_id))
      let execution_time := now - operation.start_time
      let stats := updateAgentStats
        ((lookupAssoc st.agent_stats operation.agent_name).getD
          defaultAgentStats)
        success error_info execution_time
      let metric : PerformanceMetric :=
        { metric_name := "operation_execution_time"
          value := execution_time
          timestamp := now
          agent_name := operation.agent_name
          context :=
            { operation_type := operation.operation_type
              success := success
              result_data := result_data
              error_info := error_info } }
      let st' :=
        { st with
          active_operations := active'
          agent_stats := setAssoc st.agent_stats operation.agent_name stats
          metrics_buffer := dequePush st.buffer_size st.metrics_buffer metric }
      (st', checkPerformanceThresholds st.thresholds stats
        operation.agent_name execution_time)

/-! ## Derived characterizations of the planning and execution loops -/

/-- Entry the classification loop contributes to `immediate_actions`. -/
def classImmediateEntry (c : Classification) : Option PlannedAction :=
  if 7/10 < c.confidence then
    some (.applyClassification c.email_id c.category c.confidence)
  else Option.none

/-- Entry the classification loop contributes to `user_approval_needed`. -/
def classApprovalEntry (c : Classification) : Option PlannedAction :=
  if 7/10 < c.confidence then Option.none
  else some (.reviewClassification c.email_id c.category c.confidence)

/-- Entry the organization loop contributes to `immediate_actions`. -/
def orgImmediateEntry (s : OrgSuggestion) : PlannedAction :=
  .applyOrganization s.action s.target s.confidence

/-- Entry the response loop contributes to `immediate_actions`. -/
def respImmediateEntry (settings : WorkflowSettings) (r : ResponseCandidate) :
    Option PlannedAction :=
  if settings.auto_send_responses ∧ 8/10 < r.confidence then
    some (.sendResponse r.email_id r.response_text)
  else Option.none

/-- Entry the response loop contributes to `user_approval_needed`. -/
def respApprovalEntry (settings : WorkflowSettings) (r : ResponseCandidate) :
    Option PlannedAction :=
  if settings.auto_send_responses ∧ 8/10 < r.confidence then
    Option.none
  else some (.reviewResponse r.email_id r.response_text r.confidence)

theorem foldl_classificationStep_immediate (l : List Classification)
    (plan : ExecutionPlan) :
    (l.foldl classificationStep plan).immediate_actions =
      plan.immediate_actions ++ l.filterMap classImmediateEntry := by
  induction l generalizing plan with
  | nil => simp
  | cons c l ih =>
      by_cases hc : 7/10 < c.confidence <;>
        simp [ih, classificationStep, classImmediateEntry, hc]

theorem foldl_classificationStep_approval (l : List Classification)
    (plan : ExecutionPlan) :
    (l.foldl classificationStep plan).user_approval_needed =
      plan.user_approval_needed ++ l.filterMap classApprovalEntry := by
  induction l generalizing plan with
  | nil => simp
  | cons c l ih =>
      by_cases hc : 7/10 < c.confidence <;>
        simp [ih, classificationStep, classApprovalEntry, hc]

theorem foldl_organizationStep_immediate (l : List OrgSuggestion)
    (plan : ExecutionPlan) :
    (l.foldl organizationStep plan).immediate_actions =
      plan.immediate_actions ++ l.map orgImmediateEntry := by
  induction l generalizing plan with
  | nil => simp
  | cons s l ih => simp [ih, organizationStep, orgImmediateEntry]

theorem foldl_organizationStep_approval (l : List OrgSuggestion)
    (plan : ExecutionPlan) :
    (l.foldl organizationStep plan).user_approval_needed =
      plan.user_approval_needed := by
  induction l generalizing plan with
  | nil => rfl
  | cons s l ih => simp [ih, organizationStep]

theorem foldl_responseStep_immediate (settings : WorkflowSettings)
    (l : List ResponseCandidate) (plan : ExecutionPlan) :
    (l.foldl (responseStep settings) plan).immediate_actions =
      plan.immediate_actions ++ l.filterMap (respImmediateEntry settings) := by
  induction l generalizing plan with
  | nil => simp
  | cons r l ih =>
      by_cases hr : settings.auto_send_responses = true ∧ 8/10 < r.confidence <;>
        simp [ih, responseStep, respImmediateEntry, hr]

theorem foldl_responseStep_approval (settings : WorkflowSettings)
    (l : List ResponseCandidate) (plan : ExecutionPlan) :
    (l.foldl (responseStep settings) plan).user_approval_needed =
      plan.user_approval_needed ++ l.filterMap (respApprovalEntry settings) := by
  induction l generalizing plan with
  | nil => simp
  | cons r l ih =>
      by_cases hr : settings.auto_send_responses = true ∧ 8/10 < r.confidence <;>
        simp [ih, responseStep, respApprovalEntry, hr]

/-- Closed form of the `immediate` bucket built by
`coordinate_workflow_execution`. -/
theorem coordinate_immediate_eq (settings : WorkflowSettings)
    (analysis_results : AnalysisResults) :
    (coordinateWorkflowExecution settings analysis_results).immediate_actions =
      (if settings.auto_classify then
        analysis_results.classification_results.filterMap classImmediateEntry
      else []) ++
      (if settings.auto_organize then
        analysis_results.organization_suggestions.map orgImmediateEntry
      else []) ++
      analysis_results.response_candidates.filterMap
        (respImmediateEntry settings) := by
  unfold coordinateWorkflowExecution
  by_cases hc : settings.auto_classify <;> by_cases ho : settings.auto_organize <;>
    simp [hc, ho, foldl_responseStep_immediate, foldl_organizationStep_immediate,
      foldl_classificationStep_immediate, List.append_assoc]

/-- Closed form of the `needsApproval` bucket built by
`coordinate_workflow_execution`. -/
theorem coordinate_approval_eq (settings : WorkflowSettings)
    (analysis_results : AnalysisResults) :
    (coordinateWorkflowExecution settings analysis_results).user_approval_needed =
      (if settings.auto_classify then
        analysis_results.classification_results.filterMap classApprovalEntry
      else []) ++
      analysis_results.response_candidates.filterMap
        (respApprovalEntry settings) := by
  unfold coordinateWorkflowExecution
  by_cases hc : settings.auto_classify <;> by_cases ho : settings.auto_organize <;>
    simp [hc, ho, foldl_responseStep_approval, foldl_organizationStep_approval,
      foldl_classificationStep_approval, List.append_assoc]

/-- The execution loop grows the tally and the per-action details by exactly
one entry per immediate action, whatever the action's outcome. -/
theorem foldl_executeActionStep (exec : ActionExecutor)
    (l : List PlannedAction) (res : ExecutionResults) :
    (l.foldl (executeActionStep exec) res).successful_actions +
        (l.foldl (executeActionStep exec) res).failed_actions =
      res.successful_actions + res.failed_actions + l.length ∧
    (l.foldl (executeActionStep exec) res).action_details.length =
      res.action_details.length + l.length := by
  induction l generalizing res with
  | nil => simp
  | cons a l ih =>
      rcases (ih (executeActionStep exec res a)) with ⟨h1, h2⟩
      refine ⟨?_, ?_⟩ <;> simp only [List.foldl_cons, h1, h2, List.length_cons] <;>
        cases hx : exec a with
        | ok b => cases b <;> simp [executeActionStep, hx] <;> omega
        | error e => simp [executeActionStep, hx]; omega

/-! ## Derived facts about the metrics ring buffer -/

theorem foldl_dequePush_of_le {α : Type} (cap : Nat) (xs l : List α)
    (h : l.length + xs.length ≤ cap) :
    xs.foldl (dequePush cap) l = l ++ xs := by
  induction xs generalizing l with
  | nil => simp
  | cons x xs ih =>
      have hlt : l.length < cap := by simp at h; omega
      have hpush : dequePush cap l x = l ++ [x] := by simp [dequePush, hlt]
      rw [List.foldl_cons, hpush, ih]
      · simp
      · simp at h ⊢; omega

theorem dequePush_length_le {α : Type} (cap : Nat) (l : List α) (x : α)
    (hcap : 0 < cap) (h : l.length ≤ cap) :
    (dequePush cap l x).length ≤ cap := by
  by_cases hlt : l.length < cap
  · simp [dequePush, hlt]; omega
  · have hne : l ≠ [] := by
      intro he; rw [he] at hlt; simp at hlt; omega
    simp [dequePush, hlt]
    have := List.length_pos.mpr hne
    omega

theorem foldl_dequePush_length_le {α : Type} (cap : Nat) (xs l : List α)
    (hcap : 0 < cap) (h : l.length ≤ cap) :
    (xs.foldl (dequePush cap) l).length ≤ cap := by
  induction xs generalizing l with
  | nil => simpa using h
  | cons x xs ih => exact ih _ (dequePush_length_le cap l x hcap h)

/-! ## Claims about the preference store -/

/-- A `PersistentMemory` with empty tables. -/
def emptyMemory : MemoryState :=
  { events := [], user_preferences := [], feedback := [] }

/-- A stored event describing a generated response, as
`_update_response_preference` expects to find it. -/
def responseEvent : MemoryEvent :=
  { id := "evt_resp_1"
    timestamp := 0
    event_type := "response_generated"
    data := [("response_style", .str "formal"), ("intent", .str "question")]
    importance := 1/2
    tags := ["response"] }

/-- A rejected-response feedback payload (`{"approved": False}`), carrying
the −0.2 confidence delta of the `response_approval` kind. -/
def rejectionPayload : Value := .dict [("approved", .bool false)]

/-- Memory holding `responseEvent` only. -/
def responseMemory : MemoryState :=
  { events := [responseEvent], user_preferences := [], feedback := [] }

/-- `responseMemory` after one, two and three rejected response approvals
submitted through `add_user_feedback`. -/
def rejectedOnce : MemoryState :=
  responseMemory.addUserFeedback "evt_resp_1" "response_approval"
    rejectionPayload 1

def rejectedTwice : MemoryState :=
  rejectedOnce.addUserFeedback "evt_resp_1" "response_approval"
    rejectionPayload 2

def rejectedThrice : MemoryState :=
  rejectedTwice.addUserFeedback "evt_resp_1" "response_approval"
    rejectionPayload 3

/-- C1: the spec claims the stored confidence lies in [0,1] after every
preference update, for any mix of feedback kinds.  The update branch of
`_update_preference` clamps only from above (`min(1.0, confidence + boost)`),
so three rejected response approvals (delta −0.2 each) on a fresh key drive
the stored confidence to 0.3, then 0.1, then −0.1 — strictly below 0,
contradicting both the claim and the source's own
`confidence: float  # 0.0 - 1.0` documentation. -/
theorem confidence_escapes_unit_interval :
    (rejectedThrice.getPreference "response" "intent_style_question"
        Value.none).2 = -1/10 ∧
    (rejectedThrice.getPreference "response" "intent_style_question"
        Value.none).2 < 0 := by
  have h : (rejectedThrice.getPreference "response" "intent_style_question"
      Value.none).2 = -1/10 := by
    simp +decide [rejectedThrice, rejectedTwice, rejectedOnce, responseMemory,
      responseEvent, rejectionPayload, MemoryState.addUserFeedback,
      MemoryState.learnFromFeedback, MemoryState.getEvent,
      MemoryState.updateResponsePreference, MemoryState.updatePreference,
      MemoryState.getPreference, Value.get, dictGet, Value.truthy, Value.format,
      lookupAssoc, setAssoc]
    norm_num
  exact ⟨h, by rw [h]; norm_num⟩

/-- An absent key boosted by +0.3, once and then a second time
(`confidence_boost=0.3` is the sender-rule delta of
`classification_correction`). -/
def freshBoostOnce : MemoryState :=
  emptyMemory.updatePreference "classification" "sender_category_alice"
    (.str "personal") "evt_cls_1" (3/10) 1

def freshBoostTwice : MemoryState :=
  freshBoostOnce.updatePreference "classification" "sender_category_alice"
    (.str "personal") "evt_cls_2" (3/10) 2

/-- C5: starting from an absent key, two successive +0.3 boosts yield a
stored confidence of 0.5+0.3 = 0.8 after the first update and
min(1.0, 0.8+0.3) = 1.0 (clamped, not 1.1) after the second: the clamp is
applied once per `_update_preference` call, to the stored value, not
re-derived from the update history. -/
theorem fresh_key_boost_sequence :
    (freshBoostOnce.getPreference "classification" "sender_category_alice"
        Value.none).2 = 8/10 ∧
    (freshBoostTwice.getPreference "classification" "sender_category_alice"
        Value.none).2 = 1 := by
  constructor <;>
    · simp +decide [freshBoostTwice, freshBoostOnce, emptyMemory,
        MemoryState.updatePreference, MemoryState.getPreference,
        lookupAssoc, setAssoc]
      norm_num

/-- C6: feedback whose `sourceEventId` resolves to no stored event is a
silent no-op on the preference store — no preference entry is created or
modified — while the `FeedbackRecord` itself is still appended to the
feedback table. -/
theorem feedback_unknown_event_is_noop (st : MemoryState)
    (event_id feedback_type : String) (feedback_value : Value) (now : Nat)
    (h : st.getEvent event_id = Option.none) :
    (st.addUserFeedback event_id feedback_type feedback_value
        now).user_preferences = st.user_preferences ∧
    (st.addUserFeedback event_id feedback_type feedback_value now).feedback =
      st.feedback ++
        [{ feedback_id := "feedback_" ++ toString now
           event_id := event_id
           feedback_type := feedback_type
           feedback_value := feedback_value
           timestamp := now }] := by
  unfold MemoryState.addUserFeedback MemoryState.learnFromFeedback
  simp only [MemoryState.getEvent] at h ⊢
  simp [h]

/-- Witness for C6 at a concrete input: the empty memory stores no event
with id `ghost`, so the feedback is recorded but no preference appears. -/
theorem feedback_unknown_event_is_noop_witness :
    (emptyMemory.addUserFeedback "ghost" "classification_correction"
        (Value.dict [("correct_category", .str "work")]) 7).user_preferences =
      emptyMemory.user_preferences ∧
    (emptyMemory.addUserFeedback "ghost" "classification_correction"
        (Value.dict [("correct_category", .str "work")]) 7).feedback =
      emptyMemory.feedback ++
        [{ feedback_id := "feedback_" ++ toString 7
           event_id := "ghost"
           feedback_type := "classification_correction"
           feedback_value := Value.dict [("correct_category", .str "work")]
           timestamp := 7 }] :=
  feedback_unknown_event_is_noop emptyMemory "ghost" "classification_correction"
    (Value.dict [("correct_category", .str "work")]) 7
    (by simp [emptyMemory, MemoryState.getEvent])

/-! ## Claims about the orchestrator -/

/-- A concrete email for exercising the cycle. -/
def sampleEmail : EmailMessage :=
  { id := "mail_1"
    subject := "Status?"
    sender := "alice@example.com"
    recipients := ["me@example.com"]
    body := "Can you send an update, please?"
    html_body := Option.none
    date := 0
    labels := []
    is_read := false
    is_important := false
    attachments := [] }

/-- A perception holding a single new email. -/
def singleEmailPerception : Perception :=
  { new_emails := [sampleEmail], total_new_emails := 1 }

/-- A perception with an empty batch. -/
def emptyPerception : Perception :=
  { new_emails := [], total_new_emails := 0 }

/-- The step list `EmailMasterAgent.think` plans. -/
def standardSteps : List String :=
  ["run_analysis_pipeline", "coordinate_workflow", "execute_actions",
   "monitor_performance"]

/-- C2 counterexample: with a non-empty batch and all three analysis
branches raising, the cycle still reports `success=true` — there is no
`success=false` path in `EmailMasterAgent.act`, which appends
`ToolResult(success=True)` unconditionally; the claim's
"all branches fail ⇒ success=false" is false on the code. -/
theorem all_branches_fail_cycle_reports_success :
    (runCycle defaultWorkflowSettings singleEmailPerception
        (.error "classifier crashed") (.error "organizer crashed")
        (.error "responder crashed") (fun _ => .ok true)).success = true := by
  simp [runCycle, EmailMasterAgentThink, EmailMasterAgentAct,
    singleEmailPerception]

/-- C2 (amended): for every non-empty batch the cycle reports
`success=true` regardless of the three branch outcomes — also when all
three fail — and exactly one `workflow_execution` event is persisted in
every case. -/
theorem cycle_success_independent_of_branches (perception : Perception)
    (cb : BranchOutcome (List Classification))
    (ob : BranchOutcome (List OrgSuggestion))
    (rb : BranchOutcome (List ResponseCandidate)) (exec : ActionExecutor)
    (h : perception.total_new_emails ≠ 0) :
    (runCycle defaultWorkflowSettings perception cb ob rb exec).success =
      true ∧
    (runCycle defaultWorkflowSettings perception cb ob rb exec).events =
      [{ event_type := "workflow_execution"
         data := runWorkflowSteps defaultWorkflowSettings cb ob rb exec
           perception.new_emails standardSteps
         importance := 8/10
         tags := ["workflow", "email_processing"] }] := by
  unfold runCycle EmailMasterAgentThink EmailMasterAgentAct standardSteps
  simp [h]

/-- Witness for C2 at a concrete input. -/
theorem cycle_success_independent_of_branches_witness :
    (runCycle defaultWorkflowSettings singleEmailPerception (.ok []) (.ok [])
        (.ok []) (fun _ => .ok true)).success = true ∧
    (runCycle defaultWorkflowSettings singleEmailPerception (.ok []) (.ok [])
        (.ok []) (fun _ => .ok true)).events =
      [{ event_type := "workflow_execution"
         data := runWorkflowSteps defaultWorkflowSettings (.ok []) (.ok [])
           (.ok []) (fun _ => .ok true) singleEmailPerception.new_emails
           standardSteps
         importance := 8/10
         tags := ["workflow", "email_processing"] }] :=
  cycle_success_independent_of_branches singleEmailPerception (.ok []) (.ok [])
    (.ok []) (fun _ => .ok true) (by simp [singleEmailPerception])

/-- C4 counterexample: with an empty batch the cycle persists no
`workflow_execution` event at all — `think` plans nothing, `act` iterates
nothing — whereas the claim says an empty, successful WorkflowExecution is
produced. -/
theorem empty_batch_persists_no_workflow_event :
    (runCycle defaultWorkflowSettings emptyPerception (.ok []) (.ok [])
        (.ok []) (fun _ => .ok true)).events = [] := by
  simp [runCycle, EmailMasterAgentThink, EmailMasterAgentAct, emptyPerception]

/-- C4 (amended): for every perception with an empty batch the cycle ends
immediately — no actions planned, no results, no persisted event — and the
cycle result reports `success=true` (vacuously, over zero results); no
WorkflowExecution event is recorded. -/
theorem empty_batch_cycle_ends_immediately
    (cb : BranchOutcome (List Classification))
    (ob : BranchOutcome (List OrgSuggestion))
    (rb : BranchOutcome (List ResponseCandidate)) (exec : ActionExecutor)
    (perception : Perception) (h : perception.total_new_emails = 0) :
    (runCycle defaultWorkflowSettings perception cb ob rb exec).planned_actions
        = [] ∧
    (runCycle defaultWorkflowSettings perception cb ob rb exec).results = [] ∧
    (runCycle defaultWorkflowSettings perception cb ob rb exec).events = [] ∧
    (runCycle defaultWorkflowSettings perception cb ob rb exec).success =
      true := by
  unfold runCycle EmailMasterAgentThink EmailMasterAgentAct
  simp [h]

/-- Witness for C4 at a concrete input. -/
theorem empty_batch_cycle_ends_immediately_witness :
    (runCycle defaultWorkflowSettings emptyPerception (.ok []) (.ok [])
        (.ok []) (fun _ => .ok false)).planned_actions = [] ∧
    (runCycle defaultWorkflowSettings emptyPerception (.ok []) (.ok [])
        (.ok []) (fun _ => .ok false)).results = [] ∧
    (runCycle defaultWorkflowSettings emptyPerception (.ok []) (.ok [])
        (.ok []) (fun _ => .ok false)).events = [] ∧
    (runCycle defaultWorkflowSettings emptyPerception (.ok []) (.ok [])
        (.ok []) (fun _ => .ok false)).success = true :=
  empty_batch_cycle_ends_immediately (.ok []) (.ok []) (.ok [])
    (fun _ => .ok false) emptyPerception (by simp [emptyPerception])

/-- The default settings with auto-send enabled, as the response-send half
of the gating claim assumes. -/
def autoSendSettings : WorkflowSettings :=
  { defaultWorkflowSettings with auto_send_responses := true }

/-- An analysis result with one classification and one response candidate
sitting exactly at their thresholds. -/
def boundaryAnalysis : AnalysisResults :=
  { total_emails := 2
    classification_results :=
      [{ email_id := "mail_1", category := "work", priority := 5,
         sentiment := "neutral", confidence := 7/10 }]
    organization_suggestions := []
    response_candidates :=
      [{ email_id := "mail_2", response_text := "On it.", intent := "request",
         confidence := 8/10 }] }

/-- C3 counterexample: a classification at confidence exactly 0.7 and a
response at confidence exactly 0.8 (auto-send enabled) both land in
`needsApproval` and the immediate bucket stays empty — the code gates with
a strict `>`, so "at or above the threshold goes to immediate" is false at
the boundary. -/
theorem threshold_boundary_goes_to_approval :
    (coordinateWorkflowExecution autoSendSettings
        boundaryAnalysis).immediate_actions = [] ∧
    (coordinateWorkflowExecution autoSendSettings
        boundaryAnalysis).user_approval_needed =
      [.reviewClassification "mail_1" "work" (7/10),
       .reviewResponse "mail_2" "On it." (8/10)] := by
  constructor
  · rw [coordinate_immediate_eq]
    simp only [autoSendSettings, defaultWorkflowSettings, boundaryAnalysis,
      List.filterMap_cons, List.filterMap_nil, List.map_nil,
      classImmediateEntry, respImmediateEntry]
    norm_num
  · rw [coordinate_approval_eq]
    simp only [autoSendSettings, defaultWorkflowSettings, boundaryAnalysis,
      List.filterMap_cons, List.filterMap_nil, classApprovalEntry,
      respApprovalEntry]
    norm_num

/-- C3 (amended): classification actions strictly above confidence 0.7 go
to `immediate` and those at or below 0.7 go to `needsApproval` (with
auto-classify on); response-send actions go to `immediate` exactly when
auto-send is enabled and the confidence is strictly above 0.8, and to
`needsApproval` otherwise. -/
theorem gating_strict_thresholds (settings : WorkflowSettings)
    (analysis_results : AnalysisResults) :
    (∀ c ∈ analysis_results.classification_results,
      settings.auto_classify = true →
      (7/10 < c.confidence →
        PlannedAction.applyClassification c.email_id c.category c.confidence ∈
          (coordinateWorkflowExecution settings
            analysis_results).immediate_actions) ∧
      (c.confidence ≤ 7/10 →
        PlannedAction.reviewClassification c.email_id c.category c.confidence ∈
          (coordinateWorkflowExecution settings
            analysis_results).user_approval_needed)) ∧
    (∀ r ∈ analysis_results.response_candidates,
      (settings.auto_send_responses = true → 8/10 < r.confidence →
        PlannedAction.sendResponse r.email_id r.response_text ∈
          (coordinateWorkflowExecution settings
            analysis_results).immediate_actions) ∧
      (¬(settings.auto_send_responses = true ∧ 8/10 < r.confidence) →
        PlannedAction.reviewResponse r.email_id r.response_text r.confidence ∈
          (coordinateWorkflowExecution settings
            analysis_results).user_approval_needed)) := by
  refine ⟨fun c hc hac => ⟨fun hconf => ?_, fun hconf => ?_⟩,
    fun r hr => ⟨fun hsend hconf => ?_, fun hcond => ?_⟩⟩
  · rw [coordinate_immediate_eq, if_pos hac]
    refine List.mem_append_left _ (List.mem_append_left _ ?_)
    exact List.mem_filterMap.mpr ⟨c, hc, by simp [classImmediateEntry, hconf]⟩
  · rw [coordinate_approval_eq, if_pos hac]
    refine List.mem_append_left _ ?_
    refine List.mem_filterMap.mpr ⟨c, hc, ?_⟩
    simp [classApprovalEntry, not_lt.mpr hconf]
  · rw [coordinate_immediate_eq]
    refine List.mem_append_right _ ?_
    refine List.mem_filterMap.mpr ⟨r, hr, ?_⟩
    simp [respImmediateEntry, hsend, hconf]
  · rw [coordinate_approval_eq]
    refine List.mem_append_right _ ?_
    refine List.mem_filterMap.mpr ⟨r, hr, ?_⟩
    simp [respApprovalEntry, hcond]

/-- An analysis whose confidences exercise both sides of each gate
(0.75 and 0.65 against 0.7; 0.9 against 0.8 with auto-send on). -/
def gatingWitnessAnalysis : AnalysisResults :=
  { total_emails := 3
    classification_results :=
      [{ email_id := "mail_a", category := "work", priority := 5,
         sentiment := "neutral", confidence := 75/100 },
       { email_id := "mail_b", category := "news", priority := 3,
         sentiment := "neutral", confidence := 65/100 }]
    organization_suggestions := []
    response_candidates :=
      [{ email_id := "mail_c", response_text := "Sure.", intent := "request",
         confidence := 9/10 }] }

/-- Witness for C3 at concrete confidences. -/
theorem gating_strict_thresholds_witness :
    PlannedAction.applyClassification "mail_a" "work" (75/100) ∈
      (coordinateWorkflowExecution autoSendSettings
        gatingWitnessAnalysis).immediate_actions ∧
    PlannedAction.reviewClassification "mail_b" "news" (65/100) ∈
      (coordinateWorkflowExecution autoSendSettings
        gatingWitnessAnalysis).user_approval_needed ∧
    PlannedAction.sendResponse "mail_c" "Sure." ∈
      (coordinateWorkflowExecution autoSendSettings
        gatingWitnessAnalysis).immediate_actions := by
  obtain ⟨hcls, hresp⟩ :=
    gating_strict_thresholds autoSendSettings gatingWitnessAnalysis
  refine ⟨?_, ?_, ?_⟩
  · exact (hcls
      { email_id := "mail_a", category := "work", priority := 5,
        sentiment := "neutral", confidence := 75/100 }
      (by simp [gatingWitnessAnalysis]) rfl).1 (by norm_num)
  · exact (hcls
      { email_id := "mail_b", category := "news", priority := 3,
        sentiment := "neutral", confidence := 65/100 }
      (by simp [gatingWitnessAnalysis]) rfl).2 (by norm_num)
  · exact (hresp
      { email_id := "mail_c", response_text := "Sure.", intent := "request",
        confidence := 9/10 }
      (by simp [gatingWitnessAnalysis])).1 rfl (by norm_num)

/-- C7: executing a plan's immediate actions tallies every action's outcome
independently — one entry of `action_details` and one tally increment per
action, so a failing or raising action never aborts the rest — and the
tally is the execution-results section retained in the cycle's workflow
result. -/
theorem execution_isolated_tally (exec : ActionExecutor)
    (plan : ExecutionPlan) :
    ((executeWorkflowActions exec plan).successful_actions +
        (executeWorkflowActions exec plan).failed_actions =
      plan.immediate_actions.length ∧
     (executeWorkflowActions exec plan).action_details.length =
      plan.immediate_actions.length) ∧
    (∀ (settings : WorkflowSettings)
      (cb : BranchOutcome (List Classification))
      (ob : BranchOutcome (List OrgSuggestion))
      (rb : BranchOutcome (List ResponseCandidate))
      (emails : List EmailMessage),
      (runWorkflowSteps settings cb ob rb exec emails
          standardSteps).execution_results =
        some (executeWorkflowActions exec (coordinateWorkflowExecution settings
          (runEmailAnalysisPipeline emails.length cb ob rb)))) := by
  constructor
  · have h := foldl_executeActionStep exec plan.immediate_actions
      { successful_actions := 0, failed_actions := 0, action_details := [] }
    simpa [executeWorkflowActions] using h
  · intro settings cb ob rb emails
    rfl

/-! ## Claims about the performance monitor -/

theorem updateAgentStats_total (stats : AgentStats) (success : Bool)
    (error_info : Option String) (execution_time : ℚ) :
    (updateAgentStats stats success error_info execution_time).total_operations
      = stats.total_operations + 1 := by
  cases success <;> cases error_info <;> rfl

theorem checkPerformanceThresholds_slow_mem (th : MonitorThresholds)
    (stats : AgentStats) (agent_name : String) (execution_time : ℚ)
    (h : th.max_execution_time < execution_time) :
    MonitorWarning.slowOperation agent_name execution_time ∈
      checkPerformanceThresholds th stats agent_name execution_time := by
  simp [checkPerformanceThresholds, h]

theorem checkPerformanceThresholds_no_slow (th : MonitorThresholds)
    (stats : AgentStats) (agent_name : String) (execution_time : ℚ)
    (h : execution_time ≤ th.max_execution_time) :
    ∀ a t, MonitorWarning.slowOperation a t ∉
      checkPerformanceThresholds th stats agent_name execution_time := by
  intro a t
  simp only [checkPerformanceThresholds, not_lt.mpr h, if_false]
  split_ifs <;> simp

theorem checkPerformanceThresholds_no_low (th : MonitorThresholds)
    (stats : AgentStats) (agent_name : String) (execution_time : ℚ)
    (h : stats.total_operations < 10) :
    ∀ a r, MonitorWarning.lowSuccessRate a r ∉
      checkPerformanceThresholds th stats agent_name execution_time := by
  intro a r
  simp only [checkPerformanceThresholds, Nat.not_le.mpr h, if_false]
  split_ifs <;> simp

/-- A metric distinguished by its insertion index. -/
def mkOperationMetric (i : Nat) : PerformanceMetric :=
  { metric_name := "operation_execution_time"
    value := 1
    timestamp := (i : ℚ)
    agent_name := "EmailMasterAgent"
    context :=
      { operation_type := "cycle"
        success := true
        result_data := []
        error_info := Option.none } }

/-- C8: the metrics buffer is a capacity-1000 FIFO ring buffer: no sequence
of insertions grows it past 1000; after inserting 1001 metrics the length
is exactly 1000 and the oldest remaining entry is the one inserted second
(the first was evicted). -/
theorem metrics_ring_buffer_fifo :
    (∀ xs : List PerformanceMetric,
      (xs.foldl (dequePush 1000) []).length ≤ 1000) ∧
    (((List.range' 1 1001).map mkOperationMetric).foldl
        (dequePush 1000) []).length = 1000 ∧
    (((List.range' 1 1001).map mkOperationMetric).foldl
        (dequePush 1000) []).head? = some (mkOperationMetric 2) := by
  have hsplit : List.range' 1 1001 = List.range' 1 1000 ++ [1001] := by
    simpa using List.range'_concat 1 1000
  have hcons : List.range' 1 1000 = 1 :: List.range' 2 999 := by
    simpa using List.range'_succ 1 999 1
  have hcons2 : List.range' 2 999 = 2 :: List.range' 3 998 := by
    simpa using List.range'_succ 2 998 1
  have hlen : ((List.range' 1 1000).map mkOperationMetric).length = 1000 := by
    simp
  have hfold : ((List.range' 1 1000).map mkOperationMetric).foldl
      (dequePush 1000) [] = (List.range' 1 1000).map mkOperationMetric := by
    simpa using foldl_dequePush_of_le 1000
      ((List.range' 1 1000).map mkOperationMetric) [] (by simp)
  have hbuf : (((List.range' 1 1001).map mkOperationMetric).foldl
      (dequePush 1000) []) =
      (List.range' 2 999).map mkOperationMetric ++ [mkOperationMetric 1001] := by
    rw [hsplit, List.map_append, List.foldl_append, hfold]
    simp only [List.map_cons, List.map_nil, List.foldl_cons, List.foldl_nil]
    rw [dequePush, if_neg (by rw [hlen]; omega)]
    rw [hcons]
    simp
  refine ⟨?_, ?_, ?_⟩
  · intro xs
    exact foldl_dequePush_length_le 1000 xs [] (by norm_num) (by simp)
  · rw [hbuf]
    simp
  · rw [hbuf, hcons2]
    simp

/-- C9: for a tracked operation, `end_operation` warns when the measured
duration strictly exceeds the execution-time threshold and emits no slow
warning otherwise; the metric is appended to the ring buffer in either
case (never dropped); and the low-success-rate warning cannot fire while
the owner has fewer than 10 recorded operations (counting this one). -/
theorem end_operation_alert_semantics (st : MonitorState)
    (operation_id : String) (op : ActiveOperation) (success : Bool)
    (result_data : List (String × Value)) (error_info : Option String)
    (now : ℚ)
    (h : lookupAssoc st.active_operations operation_id = some op) :
    (st.thresholds.max_execution_time < now - op.start_time →
      MonitorWarning.slowOperation op.agent_name (now - op.start_time) ∈
        (st.endOperation operation_id success result_data error_info now).2) ∧
    (now - op.start_time ≤ st.thresholds.max_execution_time →
      ∀ a t, MonitorWarning.slowOperation a t ∉
        (st.endOperation operation_id success result_data error_info now).2) ∧
    ((st.endOperation operation_id success result_data error_info
        now).1.metrics_buffer =
      dequePush st.buffer_size st.metrics_buffer
        { metric_name := "operation_execution_time"
          value := now - op.start_time
          timestamp := now
          agent_name := op.agent_name
          context :=
            { operation_type := op.operation_type
              success := success
              result_data := result_data
              error_info := error_info } }) ∧
    (((lookupAssoc st.agent_stats op.agent_name).getD
        defaultAgentStats).total_operations + 1 < 10 →
      ∀ a r, MonitorWarning.lowSuccessRate a r ∉
        (st.endOperation operation_id success result_data error_info
          now).2) := by
  simp only [MonitorState.endOperation, h]
  refine ⟨fun hslow => ?_, fun hle => ?_, ?_, fun hsmall => ?_⟩
  · exact checkPerformanceThresholds_slow_mem _ _ _ _ hslow
  · exact checkPerformanceThresholds_no_slow _ _ _ _ hle
  · trivial
  · apply checkPerformanceThresholds_no_low
    rw [updateAgentStats_total]
    omega

/-- A monitor tracking one in-flight operation started at time 0. -/
def trackedMonitorState : MonitorState :=
  initialMonitorState.startOperation "op_1" "EmailMasterAgent" "cycle" [] 0

/-- Witness for C9: duration 35 against the default 30s threshold warns and
the metric is still buffered; duration 12 emits no slow warning; with only
one recorded operation no success-rate warning can fire. -/
theorem end_operation_alert_semantics_witness :
    MonitorWarning.slowOperation "EmailMasterAgent" (35 - 0) ∈
      (trackedMonitorState.endOperation "op_1" true [] Option.none 35).2 ∧
    (∀ a t, MonitorWarning.slowOperation a t ∉
      (trackedMonitorState.endOperation "op_1" true [] Option.none 12).2) ∧
    (trackedMonitorState.endOperation "op_1" true [] Option.none
        35).1.metrics_buffer =
      dequePush trackedMonitorState.buffer_size
        trackedMonitorState.metrics_buffer
        { metric_name := "operation_execution_time"
          value := 35 - 0
          timestamp := 35
          agent_name := "EmailMasterAgent"
          context :=
            { operation_type := "cycle"
              success := true
              result_data := []
              error_info := Option.none } } ∧
    (∀ a r, MonitorWarning.lowSuccessRate a r ∉
      (trackedMonitorState.endOperation "op_1" true [] Option.none 35).2) := by
  have hlook : lookupAssoc trackedMonitorState.active_operations "op_1" =
      some { agent_name := "EmailMasterAgent", operation_type := "cycle",
             start_time := 0, context := [] } := rfl
  have h35 := end_operation_alert_semantics trackedMonitorState "op_1"
    { agent_name := "EmailMasterAgent", operation_type := "cycle",
      start_time := 0, context := [] } true [] Option.none 35 hlook
  have h12 := end_operation_alert_semantics trackedMonitorState "op_1"
    { agent_name := "EmailMasterAgent", operation_type := "cycle",
      start_time := 0, context := [] } true [] Option.none 12 hlook
  refine ⟨h35.1 ?_, h12.2.1 ?_, h35.2.2.1, h35.2.2.2 ?_⟩
  · show (30 : ℚ) < 35 - 0
    norm_num
  · show (12 : ℚ) - 0 ≤ 30
    norm_num
  · show (0 : ℕ) + 1 < 10
    norm_num

/-- C10: ending an operation whose id has no in-flight record is a no-op
apart from the warning: the returned state is the input state unchanged —
metrics buffer, every owner's statistics and all in-flight records — and
the only emitted signal is the not-found warning. -/
theorem end_operation_unknown_id_noop (st : MonitorState)
    (operation_id : String) (success : Bool)
    (result_data : List (String × Value)) (error_info : Option String)
    (now : ℚ)
    (h : lookupAssoc st.active_operations operation_id = Option.none) :
    st.endOperation operation_id success result_data error_info now =
      (st, [.operationNotFound operation_id]) := by
  simp only [MonitorState.endOperation, h]

/-- Witness for C10: a fresh monitor tracks nothing, so ending `ghost`
changes nothing. -/
theorem end_operation_unknown_id_noop_witness :
    initialMonitorState.endOperation "ghost" true [] Option.none 5 =
      (initialMonitorState,
        [MonitorWarning.operationNotFound "ghost"]) :=
  end_operation_unknown_id_noop initialMonitorState "ghost" true []
    Option.none 5 rfl

end EmailAgent
